import Mathlib

/-!
Shallow embedding of the request/response correlation and caching fabric of
the browser-MCP bridge server (Rust sources under src/rust-server/src/),
together with theorems settling the specification claims about it.

Modelling conventions:
* machine integers (u32, u64, usize) are `Nat`; no operation here can
  overflow in a way any claim observes;
* `SystemTime` / `Instant` timestamps and `Duration` values are `Nat`
  (an abstract tick count); `SystemTime::duration_since` returning `Err`
  for a future argument is modelled with an `Option`;
* `Uuid` values (connection ids, request ids) are `Nat`; v4 minting is
  modelled by a fresh-counter field, freshness being the property the
  source obtains probabilistically;
* `DashMap` is an association list with no duplicate keys (the no-dup
  invariant is carried as a hypothesis where a proof needs it);
* payload types that every claim treats as opaque (DOM snapshots,
  screenshots, metrics, console/network entries, ...) are abstracted to
  `Nat`tags; fields the claims inspect (timestamps, log buffers, the
  debugger flag) are kept;
* `tokio::sync::oneshot` slots are modelled by a `delivered` history list
  recording every value ever sent for a request id, so "fulfilled at most
  once" is a statement about that history;
* the lossy `broadcast` channel for `DataUpdateEvent`s and the atomic
  hit/miss counters are not modelled: no claim below mentions them.
-/

/-- `ConsoleMessage` (src/types/browser.rs): payload abstracted to a tag. -/
abbrev ConsoleMessage := Nat

/-- `NetworkRequest` (src/types/browser.rs): payload abstracted to a tag. -/
abbrev NetworkRequest := Nat

/-- `PageContent` (src/types/browser.rs, lines 21-29). `metadata` is a map of
strings; `last_updated : SystemTime` is a tick count. -/
structure PageContent where
  url : String
  title : String
  text : String
  html : String
  metadata : List (String × String)
  last_updated : Nat
deriving DecidableEq, Repr

/-- `SystemTime::now().duration_since(earlier)`: `none` when `earlier` is in
the future of `now` (the `Err(SystemTimeError)` case). -/
def durationSince (now earlier : Nat) : Option Nat :=
  if earlier ≤ now then some (now - earlier) else none

/-- `PageContent::is_fresh` (src/types/browser.rs, lines 31-37):
`SystemTime::now().duration_since(self.last_updated).map_or(false, |age| age <= max_age)`.
`now` is passed explicitly. -/
def PageContent.is_fresh (c : PageContent) (now max_age : Nat) : Bool :=
  (durationSince now c.last_updated).elim false (fun age => age ≤ max_age)

/-- `TabData` (src/types/browser.rs, lines 7-19). The two log buffers are
`Option<Arc<RwLock<VecDeque<_>>>>` in the source but every construction site
fills them with `Some(empty)`, so they are modelled as plain lists (front of
the list = front of the deque = oldest entry). `Arc` sharing means a record
clone keeps the same buffers, which plain list copying also models. -/
structure TabData where
  tab_id : Nat
  page_content : Option PageContent
  dom_snapshot : Option Nat
  console_logs : List ConsoleMessage
  network_data : List NetworkRequest
  performance_metrics : Option Nat
  accessibility_tree : Option Nat
  screenshot_data : Option Nat
  debugger_attached : Bool
  last_updated : Nat
deriving DecidableEq, Repr

/-- Association-list lookup modelling `DashMap::get`. -/
def mapLookup (k : Nat) : List (Nat × α) → Option α
  | [] => none
  | (k', v) :: rest => if k = k' then some v else mapLookup k rest

/-- Association-list insert modelling `DashMap::insert` (replace or add). -/
def mapInsert (k : Nat) (v : α) : List (Nat × α) → List (Nat × α)
  | [] => [(k, v)]
  | (k', v') :: rest => if k = k' then (k, v) :: rest else (k', v') :: mapInsert k v rest

/-- Association-list removal modelling `DashMap::remove`. -/
def mapRemove (k : Nat) (m : List (Nat × α)) : List (Nat × α) :=
  m.filter (fun kv => kv.1 ≠ k)

/-- `BrowserDataCache` (src/cache/browser_data.rs, lines 12-32). The
broadcast sender and the atomic hit/miss counters are omitted (no claim
below touches them); `cleanup_interval` is configuration for the periodic
task driver, not read by any modelled operation. -/
structure BrowserDataCache where
  tab_data : List (Nat × TabData)
  connection_tabs : List (Nat × Nat)
  tab_connections : List (Nat × List Nat)
  max_cache_size : Nat
  data_ttl : Nat
deriving DecidableEq, Repr

/-- `BrowserDataCache::new` (browser_data.rs, lines 35-49). -/
def BrowserDataCache.new (max_cache_size data_ttl : Nat) : BrowserDataCache :=
  { tab_data := [], connection_tabs := [], tab_connections := []
    max_cache_size := max_cache_size, data_ttl := data_ttl }

/-- `BrowserDataCache::get_console_logs` (browser_data.rs, lines 85-90):
materialises a copy of the bounded deque. -/
def BrowserDataCache.get_console_logs (c : BrowserDataCache) (tab_id : Nat) :
    Option (List ConsoleMessage) :=
  (mapLookup tab_id c.tab_data).map (fun d => d.console_logs)

/-- `BrowserDataCache::get_network_requests` (browser_data.rs, lines 92-97). -/
def BrowserDataCache.get_network_requests (c : BrowserDataCache) (tab_id : Nat) :
    Option (List NetworkRequest) :=
  (mapLookup tab_id c.tab_data).map (fun d => d.network_data)

/-- `BrowserDataCache::ensure_tab_data_exists` (browser_data.rs, lines
436-453): inserts a fresh record with empty log buffers when the key is
absent. -/
def BrowserDataCache.ensure_tab_data_exists (c : BrowserDataCache) (now tab_id : Nat) :
    BrowserDataCache :=
  match mapLookup tab_id c.tab_data with
  | some _ => c
  | none =>
    let fresh : TabData :=
      { tab_id := tab_id, page_content := none, dom_snapshot := none,
        console_logs := [], network_data := [],
        performance_metrics := none, accessibility_tree := none,
        screenshot_data := none, debugger_attached := false,
        last_updated := now }
    { c with tab_data := mapInsert tab_id fresh c.tab_data }

/-- The `while logs.len() > cap { logs.pop_front(); }` loop of
`add_console_message` / `add_network_request`. -/
def trimFrontWhileGt (cap : Nat) : List α → List α
  | [] => []
  | x :: xs => if xs.length + 1 > cap then trimFrontWhileGt cap xs else x :: xs

/-- `BrowserDataCache::update_page_content` (browser_data.rs, lines 100-133). -/
def BrowserDataCache.update_page_content (c : BrowserDataCache) (now tab_id : Nat)
    (content : PageContent) : BrowserDataCache :=
  let updated_data :=
    match mapLookup tab_id c.tab_data with
    | some data => { data with page_content := some content, last_updated := now }
    | none =>
      { tab_id := tab_id, page_content := some content, dom_snapshot := none
        console_logs := [], network_data := []
        performance_metrics := none, accessibility_tree := none
        screenshot_data := none, debugger_attached := false, last_updated := now }
  { c with tab_data := mapInsert tab_id updated_data c.tab_data }

/-- `BrowserDataCache::update_dom_snapshot` (browser_data.rs, lines 135-166). -/
def BrowserDataCache.update_dom_snapshot (c : BrowserDataCache) (now tab_id : Nat)
    (snapshot : Nat) : BrowserDataCache :=
  let updated_data :=
    match mapLookup tab_id c.tab_data with
    | some data => { data with dom_snapshot := some snapshot, last_updated := now }
    | none =>
      { tab_id := tab_id, page_content := none, dom_snapshot := some snapshot
        console_logs := [], network_data := []
        performance_metrics := none, accessibility_tree := none
        screenshot_data := none, debugger_attached := false, last_updated := now }
  { c with tab_data := mapInsert tab_id updated_data c.tab_data }

/-- `BrowserDataCache::add_console_message` (browser_data.rs, lines 168-189):
ensure the record exists, append, then drop oldest while over 1000. The
record's `last_updated` is not touched (only the shared deque is mutated). -/
def BrowserDataCache.add_console_message (c : BrowserDataCache) (now tab_id : Nat)
    (message : ConsoleMessage) : BrowserDataCache :=
  let c := c.ensure_tab_data_exists now tab_id
  match mapLookup tab_id c.tab_data with
  | some data =>
    let logs := trimFrontWhileGt 1000 (data.console_logs ++ [message])
    { c with tab_data := mapInsert tab_id { data with console_logs := logs } c.tab_data }
  | none => c

/-- `BrowserDataCache::add_network_request` (browser_data.rs, lines 191-212):
same shape with bound 500. -/
def BrowserDataCache.add_network_request (c : BrowserDataCache) (now tab_id : Nat)
    (request : NetworkRequest) : BrowserDataCache :=
  let c := c.ensure_tab_data_exists now tab_id
  match mapLookup tab_id c.tab_data with
  | some data =>
    let requests := trimFrontWhileGt 500 (data.network_data ++ [request])
    { c with tab_data := mapInsert tab_id { data with network_data := requests } c.tab_data }
  | none => c

/-- `BrowserDataCache::update_performance_metrics` (browser_data.rs, lines 214-245). -/
def BrowserDataCache.update_performance_metrics (c : BrowserDataCache) (now tab_id : Nat)
    (metrics : Nat) : BrowserDataCache :=
  let updated_data :=
    match mapLookup tab_id c.tab_data with
    | some data => { data with performance_metrics := some metrics, last_updated := now }
    | none =>
      { tab_id := tab_id, page_content := none, dom_snapshot := none
        console_logs := [], network_data := []
        performance_metrics := some metrics, accessibility_tree := none
        screenshot_data := none, debugger_attached := false, last_updated := now }
  { c with tab_data := mapInsert tab_id updated_data c.tab_data }

/-- `BrowserDataCache::update_accessibility_tree` (browser_data.rs, lines 247-278). -/
def BrowserDataCache.update_accessibility_tree (c : BrowserDataCache) (now tab_id : Nat)
    (tree : Nat) : BrowserDataCache :=
  let updated_data :=
    match mapLookup tab_id c.tab_data with
    | some data => { data with accessibility_tree := some tree, last_updated := now }
    | none =>
      { tab_id := tab_id, page_content := none, dom_snapshot := none
        console_logs := [], network_data := []
        performance_metrics := none, accessibility_tree := some tree
        screenshot_data := none, debugger_attached := false, last_updated := now }
  { c with tab_data := mapInsert tab_id updated_data c.tab_data }

/-- `BrowserDataCache::update_screenshot` (browser_data.rs, lines 280-311). -/
def BrowserDataCache.update_screenshot (c : BrowserDataCache) (now tab_id : Nat)
    (screenshot : Nat) : BrowserDataCache :=
  let updated_data :=
    match mapLookup tab_id c.tab_data with
    | some data => { data with screenshot_data := some screenshot, last_updated := now }
    | none =>
      { tab_id := tab_id, page_content := none, dom_snapshot := none
        console_logs := [], network_data := []
        performance_metrics := none, accessibility_tree := none
        screenshot_data := some screenshot, debugger_attached := false, last_updated := now }
  { c with tab_data := mapInsert tab_id updated_data c.tab_data }

/-- `BrowserDataCache::set_debugger_attached` (browser_data.rs, lines
313-321): note the `if let Some` with no else branch — a missing tab is left
missing. -/
def BrowserDataCache.set_debugger_attached (c : BrowserDataCache) (now tab_id : Nat)
    (attached : Bool) : BrowserDataCache :=
  match mapLookup tab_id c.tab_data with
  | some data =>
    let updated : TabData := { data with debugger_attached := attached, last_updated := now }
    { c with tab_data := mapInsert tab_id updated c.tab_data }
  | none => c

/-- `BrowserDataCache::remove_tab_data` (browser_data.rs, lines 393-413). -/
def BrowserDataCache.remove_tab_data (c : BrowserDataCache) (tab_id : Nat) :
    BrowserDataCache :=
  { c with tab_data := mapRemove tab_id c.tab_data
           tab_connections := mapRemove tab_id c.tab_connections
           connection_tabs := c.connection_tabs.filter (fun kv => kv.2 ≠ tab_id) }

/-- `BrowserDataCache::cleanup_stale_data` (browser_data.rs, lines 355-391):
TTL sweep (`duration_since(..).unwrap_or_default()` is `now - t` truncated
at zero, i.e. `Nat` subtraction), then, if still over `max_cache_size`,
stable-sort the survivors by `last_updated` and remove the oldest
`len - max_cache_size`. -/
def BrowserDataCache.cleanup_stale_data (now : Nat) (c : BrowserDataCache) :
    BrowserDataCache :=
  let stale_tabs : List Nat :=
    (c.tab_data.filter (fun kv => now - kv.2.last_updated > c.data_ttl)).map Prod.fst
  let c := stale_tabs.foldl (fun acc tab_id => acc.remove_tab_data tab_id) c
  if c.tab_data.length > c.max_cache_size then
    let entries : List (Nat × Nat) := c.tab_data.map (fun kv => (kv.1, kv.2.last_updated))
    let sorted := entries.mergeSort (fun a b => a.2 ≤ b.2)
    let to_remove := entries.length - c.max_cache_size
    (sorted.take to_remove).foldl (fun acc kv => acc.remove_tab_data kv.1) c
  else c

/-- `BrowserRequest` (src/types/messages.rs, lines 25-76); nested payload
types abstracted to tags where no claim inspects them. -/
inductive BrowserRequest where
  | get_page_content (include_metadata : Bool)
  | get_dom_snapshot (max_depth : Nat) (include_styles : Bool)
  | execute_javascript (code : String) (return_by_value : Bool)
  | get_console_messages (level_filter : Option String) (limit : Option Nat)
  | get_network_requests (include_bodies : Bool) (limit : Option Nat)
  | capture_screenshot (format : String) (quality : Option Nat) (clip : Option Nat)
  | get_performance_metrics
  | get_accessibility_tree (max_depth : Option Nat)
  | get_browser_tabs
  | attach_debugger
  | detach_debugger
deriving DecidableEq, Repr

/-- `BrowserResponse` (src/types/messages.rs, lines 78-116). -/
inductive BrowserResponse where
  | pageContent (content : PageContent)
  | domSnapshot (snapshot : Nat)
  | javaScriptResult (result : Nat)
  | consoleMessages (messages : List ConsoleMessage)
  | networkRequests (requests : List NetworkRequest)
  | screenshot (data : Nat)
  | performanceMetrics (metrics : Nat)
  | accessibilityTree (tree : Nat)
  | browserTabs (tabs : List Nat)
  | debuggerAttached (success : Bool)
  | debuggerDetached (success : Bool)
  | error (message : String)
deriving DecidableEq, Repr

/-- Decidable equality for `Except`, used through the message types below. -/
instance exceptDecEq {ε α : Type} [DecidableEq ε] [DecidableEq α] :
    DecidableEq (Except ε α) := fun x y =>
  match x, y with
  | Except.ok a, Except.ok b =>
    if h : a = b then Decidable.isTrue (by rw [h]) else Decidable.isFalse (by simp [h])
  | Except.error a, Except.error b =>
    if h : a = b then Decidable.isTrue (by rw [h]) else Decidable.isFalse (by simp [h])
  | Except.ok _, Except.error _ => Decidable.isFalse (by simp)
  | Except.error _, Except.ok _ => Decidable.isFalse (by simp)

/-- `BrowserMessage` (src/types/messages.rs, lines 5-23); the browser-side
envelope. `BrowserEvent` payloads are abstracted to a tag. -/
inductive BrowserMessage where
  | request (request_id : Nat) (action : BrowserRequest) (tab_id : Option Nat)
  | response (request_id : Nat) (result : Except String BrowserResponse)
  | browserNotification (event : Nat)
  | heartbeat (timestamp : Nat)
deriving DecidableEq, Repr

/-- `BrowserMcpError` (src/types/errors.rs, lines 5-60). `RequestTimeout`
carries the `Duration` as a tick count. -/
inductive BrowserMcpError where
  | ConnectionNotAvailable (tab_id : Nat)
  | RequestTimeout (timeout : Nat)
  | ConnectionClosed
  | InvalidRequest (message : String)
  | BrowserExtensionError (message : String)
  | TabNotFound (tab_id : Nat)
  | JsonError (message : String)
  | WebSocketError (message : String)
  | CacheError (message : String)
  | ConfigError (message : String)
  | NetworkError (message : String)
  | InternalError (message : String)
  | ResourceNotFound (uri : String)
  | MethodNotImplemented (method : String)
  | InvalidParameters (message : String)
  | PermissionDenied (message : String)
  | RateLimitExceeded
  | ServiceUnavailable (message : String)
deriving DecidableEq, Repr

/-- `MessageRouter` (src/transport/connection.rs, lines 46-49). The
`DashMap<Uuid, oneshot::Sender<BrowserResponse>>` is modelled by the list of
ids whose sender is still in the table plus `delivered`, the history of every
value ever sent into some request's oneshot slot (each id has exactly one
slot because ids are minted fresh). -/
structure MessageRouter where
  pending_requests : List Nat
  delivered : List (Nat × BrowserResponse)
  request_timeout : Nat
deriving DecidableEq, Repr

/-- `MessageRouter::new` (connection.rs, lines 524-529). -/
def MessageRouter.new (request_timeout : Nat) : MessageRouter :=
  { pending_requests := [], delivered := [], request_timeout := request_timeout }

/-- `MessageRouter::register_pending_request` (connection.rs, lines 531-549):
inserts the sender keyed by the fresh id (the spawned timeout task is the
separate transition `timeout_fire` below). -/
def MessageRouter.register_pending_request (r : MessageRouter) (request_id : Nat) :
    MessageRouter :=
  { r with pending_requests := request_id :: r.pending_requests }

/-- The body of the timeout task spawned by `register_pending_request`
(connection.rs, lines 541-548): after the sleep, if the entry is still
present remove it and send `Error { message: "Request timeout" }` into the
slot; otherwise do nothing. -/
def MessageRouter.timeout_fire (r : MessageRouter) (request_id : Nat) : MessageRouter :=
  if r.pending_requests.contains request_id then
    { r with pending_requests := r.pending_requests.erase request_id,
             delivered := r.delivered ++ [(request_id, BrowserResponse.error "Request timeout")] }
  else r

/-- `MessageRouter::handle_response` (connection.rs, lines 551-561): remove
the entry if present and send `result.unwrap_or_else(Error)` into its slot; a
response whose id is absent is dropped. -/
def MessageRouter.handle_response (r : MessageRouter) (request_id : Nat)
    (result : Except String BrowserResponse) : MessageRouter :=
  if r.pending_requests.contains request_id then
    let response := match result with
      | .ok v => v
      | .error e => BrowserResponse.error e
    { r with pending_requests := r.pending_requests.erase request_id,
             delivered := r.delivered ++ [(request_id, response)] }
  else r

/-- `MessageRouter::cleanup_connection` (connection.rs, lines 563-566): a
no-op — pending requests owned by the connection are left to time out. -/
def MessageRouter.cleanup_connection (r : MessageRouter) (_connection_id : Nat) :
    MessageRouter := r

/-- `WebSocketConnection` (connection.rs, lines 22-29). The unbounded mpsc
sender is modelled by the queue contents plus a closed flag (send fails —
`SendError`, lifted to `ConnectionClosed` — exactly when the receiver was
dropped). `connected_at` / `remote_addr` are dropped as inert. -/
structure WebSocketConnection where
  id : Nat
  sender_queue : List BrowserMessage
  sender_closed : Bool
  tab_id : Option Nat
  last_activity : Nat
deriving DecidableEq, Repr

/-- `ConnectionStats` (connection.rs, lines 31-38). -/
structure ConnectionStats where
  total_connections : Nat
  active_connections : Nat
  messages_sent : Nat
  messages_received : Nat
  connection_errors : Nat
deriving DecidableEq, Repr

/-- `ConnectionPool` (connection.rs, lines 14-20) plus the health monitor's
`unhealthy_connections` key set; `next_request_id` supplies the fresh ids
`Uuid::new_v4()` mints in `send_request`. -/
structure ConnectionPool where
  connections : List (Nat × WebSocketConnection)
  unhealthy_connections : List Nat
  message_router : MessageRouter
  stats : ConnectionStats
  next_request_id : Nat
deriving DecidableEq, Repr

/-- `ConnectionPool::new` (connection.rs, lines 52-59): the router is built
with `Duration::from_secs(30)`. -/
def ConnectionPool.new : ConnectionPool :=
  { connections := [], unhealthy_connections := [],
    message_router := MessageRouter.new 30,
    stats := { total_connections := 0, active_connections := 0, messages_sent := 0,
               messages_received := 0, connection_errors := 0 },
    next_request_id := 0 }

/-- `ConnectionPool::find_connection_for_tab` (connection.rs, lines 403-418):
first connection whose `tab_id == Some(tab_id)`. The source returns a clone
whose `sender` aliases the registry entry's channel; returning the registry
key alongside makes that aliasing explicit. -/
def ConnectionPool.find_connection_for_tab (p : ConnectionPool) (tab_id : Nat) :
    Option (Nat × WebSocketConnection) :=
  p.connections.find? (fun kv => kv.2.tab_id = some tab_id)

/-- Outcome of the synchronous phase of `send_request`, before the caller
suspends on the oneshot receiver. -/
inductive SendStart where
  | failed (e : BrowserMcpError)
  | awaiting (request_id : Nat)
deriving DecidableEq, Repr

/-- The synchronous phase of `ConnectionPool::send_request` (connection.rs,
lines 369-401): mint a fresh id, register the pending entry (which also
arms the timeout task), resolve the bound connection — failing with
`ConnectionNotAvailable` when there is none — then serialise the request
envelope onto the connection's queue, `SendError` becoming
`ConnectionClosed`. The pending entry is not removed on either failure. -/
def ConnectionPool.send_request_start (p : ConnectionPool) (tab_id : Nat)
    (request : BrowserRequest) : ConnectionPool × SendStart :=
  let request_id := p.next_request_id
  let p := { p with next_request_id := p.next_request_id + 1,
                    message_router := p.message_router.register_pending_request request_id }
  match p.find_connection_for_tab tab_id with
  | none => (p, SendStart.failed (BrowserMcpError.ConnectionNotAvailable tab_id))
  | some (cid, conn) =>
    if conn.sender_closed then
      (p, SendStart.failed BrowserMcpError.ConnectionClosed)
    else
      let message := BrowserMessage.request request_id request (some tab_id)
      let conn := { conn with sender_queue := conn.sender_queue ++ [message] }
      ({ p with connections := mapInsert cid conn p.connections },
       SendStart.awaiting request_id)

/-- What the caller's `tokio::time::timeout(timeout, response_rx).await`
observes at the deadline (connection.rs, lines 397-400): `noDelivery` is the
elapsed case, `senderDropped` the `RecvError` case, `delivered v` a value
sent into the slot before the deadline. -/
inductive AwaitedSlot where
  | noDelivery
  | senderDropped
  | delivered (v : BrowserResponse)
deriving DecidableEq, Repr

/-- The await tail of `ConnectionPool::send_request` (connection.rs, lines
396-400). -/
def await_response (timeout : Nat) : AwaitedSlot → Except BrowserMcpError BrowserResponse
  | AwaitedSlot.noDelivery => Except.error (BrowserMcpError.RequestTimeout timeout)
  | AwaitedSlot.senderDropped => Except.error BrowserMcpError.ConnectionClosed
  | AwaitedSlot.delivered v => Except.ok v

/-- `ConnectionPool::remove_connection` (connection.rs, lines 438-444):
removes the registry entry and the health-monitor entry, then calls the
router's (no-op) `cleanup_connection`. It does not touch `stats`. -/
def ConnectionPool.remove_connection (p : ConnectionPool) (connection_id : Nat) :
    ConnectionPool :=
  let p := { p with connections := mapRemove connection_id p.connections,
                    unhealthy_connections := p.unhealthy_connections.erase connection_id }
  { p with message_router := p.message_router.cleanup_connection connection_id }

/-- The teardown tail of `ConnectionPool::handle_connection` (connection.rs,
lines 149-154): after either task finishes, `remove_connection` then a
decrement of `active_connections`. -/
def ConnectionPool.connection_teardown (p : ConnectionPool) (connection_id : Nat) :
    ConnectionPool :=
  let p := p.remove_connection connection_id
  { p with stats := { p.stats with active_connections := p.stats.active_connections - 1 } }

/-- The concurrent transitions that touch the pending-request table. -/
inductive RouterEvent where
  | register (request_id : Nat)
  | response (request_id : Nat) (result : Except String BrowserResponse)
  | timeout (request_id : Nat)
deriving DecidableEq, Repr

/-- Interleaving semantics of the pending-request table. -/
def MessageRouter.step (r : MessageRouter) : RouterEvent → MessageRouter
  | RouterEvent.register id => r.register_pending_request id
  | RouterEvent.response id res => r.handle_response id res
  | RouterEvent.timeout id => r.timeout_fire id

/-- A `register` event may only carry a freshly minted id, one that was
never in the table and whose slot was never written — what `Uuid::new_v4()`
guarantees in `send_request`. -/
def RouterEventFresh (r : MessageRouter) : RouterEvent → Prop
  | RouterEvent.register id =>
      id ∉ r.pending_requests ∧ ∀ kv ∈ r.delivered, kv.1 ≠ id
  | _ => True

/-- Table invariant: no duplicate keys, a pending id's slot is still empty,
and no slot ever received two values. -/
def RouterInv (r : MessageRouter) : Prop :=
  r.pending_requests.Nodup ∧
  (∀ id ∈ r.pending_requests, ∀ kv ∈ r.delivered, kv.1 ≠ id) ∧
  (∀ id : Nat, (r.delivered.map Prod.fst).count id ≤ 1)

/-- Per-tab mutation surface of the cache, for quantifying over "any
sequence of cache operations". -/
inductive CacheOp where
  | updatePageContent (tab_id : Nat) (content : PageContent)
  | updateDomSnapshot (tab_id : Nat) (snapshot : Nat)
  | addConsoleMessage (tab_id : Nat) (message : ConsoleMessage)
  | addNetworkRequest (tab_id : Nat) (request : NetworkRequest)
  | updatePerformanceMetrics (tab_id : Nat) (metrics : Nat)
  | updateAccessibilityTree (tab_id : Nat) (tree : Nat)
  | updateScreenshot (tab_id : Nat) (screenshot : Nat)
  | setDebuggerAttached (tab_id : Nat) (attached : Bool)
  | removeTabData (tab_id : Nat)
  | cleanupStaleData
deriving DecidableEq, Repr

/-- Apply one cache operation at time `now`. -/
def applyCacheOp (now : Nat) (op : CacheOp) (c : BrowserDataCache) : BrowserDataCache :=
  match op with
  | CacheOp.updatePageContent tab_id content => c.update_page_content now tab_id content
  | CacheOp.updateDomSnapshot tab_id snapshot => c.update_dom_snapshot now tab_id snapshot
  | CacheOp.addConsoleMessage tab_id message => c.add_console_message now tab_id message
  | CacheOp.addNetworkRequest tab_id request => c.add_network_request now tab_id request
  | CacheOp.updatePerformanceMetrics tab_id metrics => c.update_performance_metrics now tab_id metrics
  | CacheOp.updateAccessibilityTree tab_id tree => c.update_accessibility_tree now tab_id tree
  | CacheOp.updateScreenshot tab_id screenshot => c.update_screenshot now tab_id screenshot
  | CacheOp.setDebuggerAttached tab_id attached => c.set_debugger_attached now tab_id attached
  | CacheOp.removeTabData tab_id => c.remove_tab_data tab_id
  | CacheOp.cleanupStaleData => BrowserDataCache.cleanup_stale_data now c

/-- The bounded-log invariant of the spec: at most 1000 console entries and
500 network entries per tab. -/
def BoundedLogs (c : BrowserDataCache) : Prop :=
  ∀ kv ∈ c.tab_data, kv.2.console_logs.length ≤ 1000 ∧ kv.2.network_data.length ≤ 500

/-- A `serde_json::Value`. Numbers are modelled as integers (no claim
involves fractional JSON numbers). -/
inductive Json where
  | null
  | bool (b : Bool)
  | num (n : Int)
  | str (s : String)
  | arr (items : List Json)
  | obj (fields : List (String × Json))

/-- `Value::get(key)` on an object. -/
def Json.get (j : Json) (key : String) : Option Json :=
  match j with
  | Json.obj fields => (fields.find? (fun kv => kv.1 = key)).map Prod.snd
  | _ => none

/-- `Value::as_str`. -/
def Json.asStr : Json → Option String
  | Json.str s => some s
  | _ => none

/-- `handle_initialize` (src/server/combined.rs, lines 155-167). -/
def handle_initialize (_params : Option Json) : Except String Json :=
  Except.ok (Json.obj
    [("protocolVersion", Json.str "2024-11-05"),
     ("serverInfo", Json.obj [("name", Json.str "browser-mcp-rust-server"),
                              ("version", Json.str "1.0.0")]),
     ("capabilities", Json.obj [("tools", Json.obj []), ("resources", Json.obj [])])])

/-- `handle_tools_list` (combined.rs, lines 169-235): the static tool
catalogue; the per-tool `description`/`inputSchema` objects are inert data
no claim reads and are abstracted to empty objects here. -/
def handle_tools_list : Except String Json :=
  Except.ok (Json.obj
    [("tools", Json.arr
      [Json.obj [("name", Json.str "get_page_content"), ("inputSchema", Json.obj [])],
       Json.obj [("name", Json.str "get_dom_snapshot"), ("inputSchema", Json.obj [])],
       Json.obj [("name", Json.str "execute_javascript"), ("inputSchema", Json.obj [])],
       Json.obj [("name", Json.str "get_browser_tabs"), ("inputSchema", Json.obj [])]])])

/-- `handle_resources_list` (combined.rs, lines 237-243). -/
def handle_resources_list : Except String Json :=
  Except.ok (Json.obj [("resources", Json.arr [])])

/-- `handle_resource_read` (combined.rs, lines 245-248). -/
def handle_resource_read (_params : Json) : Except String Json :=
  Except.error "Resource reading not yet implemented"

/-- The response-formatting tail of `handle_mcp_request` (combined.rs,
lines 100-119): wrap the dispatch outcome in the JSON-RPC envelope, echoing
`id`; errors map to code `-32603`. -/
def format_jsonrpc_response (id : Json) : Except String Json → Nat × Json
  | Except.ok data =>
    (200, Json.obj [("jsonrpc", Json.str "2.0"), ("id", id), ("result", data)])
  | Except.error error_msg =>
    (200, Json.obj
      [("jsonrpc", Json.str "2.0"), ("id", id),
       ("error", Json.obj
         [("code", Json.num (-32603)), ("message", Json.str "Internal error"),
          ("data", Json.str error_msg)])])

/-- `handle_mcp_request` (combined.rs, lines 51-120). The HTTP result is a
status code paired with the JSON body. `tool_call` abstracts
`handle_tool_call` (combined.rs, lines 250-304), whose outcome depends on
live server state; every property proved below holds for all of its
behaviours. -/
def handle_mcp_request (tool_call : Json → Except String Json) (request : Json) :
    Nat × Json :=
  let id := (request.get "id").getD Json.null
  match (request.get "method").bind Json.asStr with
  | none =>
    (400, Json.obj
      [("jsonrpc", Json.str "2.0"), ("id", id),
       ("error", Json.obj
         [("code", Json.num (-32600)), ("message", Json.str "Invalid Request"),
          ("data", Json.str "Missing \x27method\x27 field")])])
  | some method =>
    if method = "notifications/initialized" then (200, Json.obj [])
    else
      let result : Except String Json :=
        if method = "initialize" then handle_initialize (request.get "params")
        else if method = "tools/list" then handle_tools_list
        else if method = "resources/list" then handle_resources_list
        else if method = "resources/read" then
          match request.get "params" with
          | some params => handle_resource_read params
          | none => Except.error "Missing params for resources/read"
        else if method = "tools/call" then
          match request.get "params" with
          | some params => tool_call params
          | none => Except.error "Missing params for tools/call"
        else Except.error ("Unknown method: " ++ method)
      format_jsonrpc_response id result

/-! Association-list map lemmas shared by several claims. -/

theorem mapLookup_insert_self (k : Nat) (v : α) (m : List (Nat × α)) :
    mapLookup k (mapInsert k v m) = some v := by
  induction m with
  | nil => simp [mapInsert, mapLookup]
  | cons kv rest ih =>
    obtain ⟨k', v'⟩ := kv
    by_cases h : k = k'
    · subst h; simp [mapInsert, mapLookup]
    · simp [mapInsert, mapLookup, h, ih]

theorem mapLookup_mem {k : Nat} {v : α} {m : List (Nat × α)}
    (h : mapLookup k m = some v) : (k, v) ∈ m := by
  induction m with
  | nil => simp [mapLookup] at h
  | cons kv rest ih =>
    obtain ⟨k', v'⟩ := kv
    by_cases hk : k = k'
    · subst hk
      simp [mapLookup] at h
      simp [h]
    · simp [mapLookup, hk] at h
      exact List.mem_cons_of_mem _ (ih h)

theorem mem_mapInsert {k : Nat} {v : α} {kv : Nat × α} {m : List (Nat × α)}
    (hkv : kv ∈ mapInsert k v m) : kv = (k, v) ∨ kv ∈ m := by
  induction m with
  | nil => simp [mapInsert] at hkv; simp [hkv]
  | cons kv' rest ih =>
    obtain ⟨k', v'⟩ := kv'
    by_cases h : k = k'
    · subst h
      simp [mapInsert] at hkv
      rcases hkv with h | h
      · exact Or.inl h
      · exact Or.inr (List.mem_cons_of_mem _ h)
    · simp [mapInsert, h] at hkv
      rcases hkv with h' | h'
      · exact Or.inr (by simp [h'])
      · rcases ih h' with h'' | h''
        · exact Or.inl h''
        · exact Or.inr (List.mem_cons_of_mem _ h'')

theorem mapLookup_mapRemove_self (k : Nat) (m : List (Nat × α)) :
    mapLookup k (mapRemove k m) = none := by
  induction m with
  | nil => rfl
  | cons kv rest ih =>
    obtain ⟨k', v'⟩ := kv
    by_cases h : k' = k
    · simpa [mapRemove, h] using ih
    · have hne : k ≠ k' := fun hk => h hk.symm
      simpa [mapRemove, h, mapLookup, hne] using ih

/-- Keys determine entries in a map whose key list has no duplicates. -/
theorem keyNodup_inj {m : List (Nat × α)} (hnd : (m.map Prod.fst).Nodup)
    {kv kv' : Nat × α} (h : kv ∈ m) (h' : kv' ∈ m) (hk : kv.1 = kv'.1) :
    kv = kv' := by
  induction m with
  | nil => simp at h
  | cons a rest ih =>
    simp only [List.map_cons, List.nodup_cons] at hnd
    rcases List.mem_cons.mp h with h1 | h1
    · rcases List.mem_cons.mp h' with h2 | h2
      · rw [h1, h2]
      · subst h1
        have hmem : kv.1 ∈ rest.map Prod.fst := by
          rw [hk]; exact List.mem_map_of_mem Prod.fst h2
        exact absurd hmem hnd.1
    · rcases List.mem_cons.mp h' with h2 | h2
      · subst h2
        have hmem : kv'.1 ∈ rest.map Prod.fst := by
          rw [← hk]; exact List.mem_map_of_mem Prod.fst h1
        exact absurd hmem hnd.1
      · exact ih hnd.2 h1 h2

/-- C9: `PageContent.is_fresh(max_age)` returns `true` exactly when the
content's `last_updated` is not in the future and its age `now -
last_updated` is at most `max_age`; in particular it returns `false`
whenever `last_updated` lies in the future of the clock. -/
theorem c9_is_fresh_iff (c : PageContent) (now max_age : Nat) :
    (c.is_fresh now max_age = true ↔
      c.last_updated ≤ now ∧ now - c.last_updated ≤ max_age) ∧
    (now < c.last_updated → c.is_fresh now max_age = false) := by
  constructor
  · unfold PageContent.is_fresh durationSince
    by_cases h : c.last_updated ≤ now <;> simp [h]
  · intro hfut
    unfold PageContent.is_fresh durationSince
    simp [Nat.not_le.mpr hfut]

/-- Witness for C9 at a concrete future-dated content. -/
theorem c9_is_fresh_iff_witness :
    (5 < 10) ∧
    PageContent.is_fresh
      { url := "u", title := "t", text := "x", html := "h", metadata := [],
        last_updated := 10 } 5 100 = false :=
  ⟨by decide,
   (c9_is_fresh_iff
      { url := "u", title := "t", text := "x", html := "h", metadata := [],
        last_updated := 10 } 5 100).2 (by decide)⟩

/-- C4: `send_request` on a tab with no bound connection fails with
`ConnectionNotAvailable { tab_id }` in its synchronous phase, leaving every
connection's outbound queue (indeed the whole connection registry)
unchanged. -/
theorem c4_send_request_no_connection (p : ConnectionPool) (tab_id : Nat)
    (request : BrowserRequest)
    (h : p.find_connection_for_tab tab_id = none) :
    (p.send_request_start tab_id request).2
        = SendStart.failed (BrowserMcpError.ConnectionNotAvailable tab_id) ∧
    (p.send_request_start tab_id request).1.connections = p.connections := by
  have h' : ConnectionPool.find_connection_for_tab
      { p with next_request_id := p.next_request_id + 1,
               message_router :=
                 p.message_router.register_pending_request p.next_request_id }
      tab_id = none := h
  unfold ConnectionPool.send_request_start
  simp only [h']
  exact ⟨trivial, trivial⟩

/-- Witness for C4: the empty pool has no connection bound to tab 42. -/
theorem c4_send_request_no_connection_witness :
    (ConnectionPool.new.send_request_start 42 BrowserRequest.get_browser_tabs).2
        = SendStart.failed (BrowserMcpError.ConnectionNotAvailable 42) ∧
    (ConnectionPool.new.send_request_start 42 BrowserRequest.get_browser_tabs).1.connections
        = ConnectionPool.new.connections :=
  c4_send_request_no_connection ConnectionPool.new 42 BrowserRequest.get_browser_tabs rfl

/-- A concrete pool used to refute C7: one registered connection (id 7)
and `active_connections = 1`. -/
def c7Pool : ConnectionPool :=
  { connections :=
      [(7, { id := 7, sender_queue := [], sender_closed := false,
             tab_id := some 1, last_activity := 0 })],
    unhealthy_connections := [],
    message_router := MessageRouter.new 30,
    stats := { total_connections := 1, active_connections := 1, messages_sent := 0,
               messages_received := 0, connection_errors := 0 },
    next_request_id := 0 }

/-- C7 counterexample: `remove_connection(7)` removes the registry entry but
leaves `active_connections` at 1 — the decrement the claim attributes to
`remove_connection` does not happen there (it is done by the caller in
`handle_connection`, and not at all on the stale-reaper path). -/
theorem c7_counterexample :
    (c7Pool.remove_connection 7).connections = [] ∧
    (c7Pool.remove_connection 7).stats.active_connections = 1 := by
  constructor <;> rfl

/-- C7 (amended): `remove_connection(id)` removes the registry entry and the
health-monitor entry and leaves the pending-request table untouched, so any
pending correlation owned by the connection is left to expire via its
timeout task; it does not itself decrement `active_connections` — that
decrement is performed by the `handle_connection` teardown after it calls
`remove_connection`. -/
theorem c7_remove_connection (p : ConnectionPool) (connection_id : Nat) :
    (p.remove_connection connection_id).connections = mapRemove connection_id p.connections ∧
    mapLookup connection_id (p.remove_connection connection_id).connections = none ∧
    (p.remove_connection connection_id).message_router = p.message_router ∧
    (p.remove_connection connection_id).stats = p.stats ∧
    (p.connection_teardown connection_id).connections = mapRemove connection_id p.connections ∧
    (p.connection_teardown connection_id).stats.active_connections
        = p.stats.active_connections - 1 :=
  ⟨rfl, mapLookup_mapRemove_self connection_id p.connections, rfl, rfl, rfl, rfl⟩

/-- C6 counterexample: `set_debugger_attached` on a tab with no record does
not create one — the cache still has no entry for tab 1 afterwards. -/
theorem c6_counterexample :
    mapLookup 1 (((BrowserDataCache.new 100 1000).set_debugger_attached 0 1 true).tab_data)
      = none := by
  rfl

/-- C6 (amended): every writer except `set_debugger_attached` invoked on a
tab id with no existing record creates a fresh `TabData` with empty log
buffers (the two append writers create it empty and then append their single
entry), so the cache afterwards contains an entry for that tab id;
`set_debugger_attached` on a missing tab leaves the cache unchanged. -/
theorem c6_create_on_write (c : BrowserDataCache) (now tab_id : Nat)
    (content : PageContent) (snapshot metrics tree screenshot : Nat)
    (message : ConsoleMessage) (request : NetworkRequest) (attached : Bool)
    (h : mapLookup tab_id c.tab_data = none) :
    mapLookup tab_id (c.update_page_content now tab_id content).tab_data
      = some { tab_id := tab_id, page_content := some content, dom_snapshot := none,
               console_logs := [], network_data := [], performance_metrics := none,
               accessibility_tree := none, screenshot_data := none,
               debugger_attached := false, last_updated := now } ∧
    mapLookup tab_id (c.update_dom_snapshot now tab_id snapshot).tab_data
      = some { tab_id := tab_id, page_content := none, dom_snapshot := some snapshot,
               console_logs := [], network_data := [], performance_metrics := none,
               accessibility_tree := none, screenshot_data := none,
               debugger_attached := false, last_updated := now } ∧
    mapLookup tab_id (c.update_performance_metrics now tab_id metrics).tab_data
      = some { tab_id := tab_id, page_content := none, dom_snapshot := none,
               console_logs := [], network_data := [], performance_metrics := some metrics,
               accessibility_tree := none, screenshot_data := none,
               debugger_attached := false, last_updated := now } ∧
    mapLookup tab_id (c.update_accessibility_tree now tab_id tree).tab_data
      = some { tab_id := tab_id, page_content := none, dom_snapshot := none,
               console_logs := [], network_data := [], performance_metrics := none,
               accessibility_tree := some tree, screenshot_data := none,
               debugger_attached := false, last_updated := now } ∧
    mapLookup tab_id (c.update_screenshot now tab_id screenshot).tab_data
      = some { tab_id := tab_id, page_content := none, dom_snapshot := none,
               console_logs := [], network_data := [], performance_metrics := none,
               accessibility_tree := none, screenshot_data := some screenshot,
               debugger_attached := false, last_updated := now } ∧
    mapLookup tab_id (c.add_console_message now tab_id message).tab_data
      = some { tab_id := tab_id, page_content := none, dom_snapshot := none,
               console_logs := [message], network_data := [], performance_metrics := none,
               accessibility_tree := none, screenshot_data := none,
               debugger_attached := false, last_updated := now } ∧
    mapLookup tab_id (c.add_network_request now tab_id request).tab_data
      = some { tab_id := tab_id, page_content := none, dom_snapshot := none,
               console_logs := [], network_data := [request], performance_metrics := none,
               accessibility_tree := none, screenshot_data := none,
               debugger_attached := false, last_updated := now } ∧
    c.set_debugger_attached now tab_id attached = c := by
  refine ⟨?_, ?_, ?_, ?_, ?_, ?_, ?_, ?_⟩
  · unfold BrowserDataCache.update_page_content
    rw [h]
    exact mapLookup_insert_self _ _ _
  · unfold BrowserDataCache.update_dom_snapshot
    rw [h]
    exact mapLookup_insert_self _ _ _
  · unfold BrowserDataCache.update_performance_metrics
    rw [h]
    exact mapLookup_insert_self _ _ _
  · unfold BrowserDataCache.update_accessibility_tree
    rw [h]
    exact mapLookup_insert_self _ _ _
  · unfold BrowserDataCache.update_screenshot
    rw [h]
    exact mapLookup_insert_self _ _ _
  · unfold BrowserDataCache.add_console_message BrowserDataCache.ensure_tab_data_exists
    rw [h]
    simp only [mapLookup_insert_self]
    simp [trimFrontWhileGt]
  · unfold BrowserDataCache.add_network_request BrowserDataCache.ensure_tab_data_exists
    rw [h]
    simp only [mapLookup_insert_self]
    simp [trimFrontWhileGt]
  · unfold BrowserDataCache.set_debugger_attached
    rw [h]

/-- Witness for C6 (amended) on the empty cache at tab 3. -/
theorem c6_create_on_write_witness :
    mapLookup 3 ((BrowserDataCache.new 5 10).tab_data) = none ∧
    mapLookup 3 (((BrowserDataCache.new 5 10).add_console_message 7 3 99).tab_data)
      = some { tab_id := 3, page_content := none, dom_snapshot := none,
               console_logs := [99], network_data := [], performance_metrics := none,
               accessibility_tree := none, screenshot_data := none,
               debugger_attached := false, last_updated := 7 } ∧
    (BrowserDataCache.new 5 10).set_debugger_attached 7 3 true
      = BrowserDataCache.new 5 10 := by
  have h := c6_create_on_write (BrowserDataCache.new 5 10) 7 3
    { url := "u", title := "t", text := "x", html := "h", metadata := [], last_updated := 0 }
    0 0 0 0 99 0 true rfl
  exact ⟨rfl, h.2.2.2.2.2.1, h.2.2.2.2.2.2.2⟩

/-- C3: on a tab with an open bound connection, `send_request` registers the
minted id and suspends; if no value is delivered into the slot within the
30 s deadline the caller's await yields `RequestTimeout`, and the timeout
task removes the still-present entry and delivers
`Error { message: "Request timeout" }` into the slot. -/
theorem c3_request_timeout (p : ConnectionPool) (tab_id : Nat) (request : BrowserRequest)
    (cid : Nat) (conn : WebSocketConnection)
    (hfind : p.find_connection_for_tab tab_id = some (cid, conn))
    (hopen : conn.sender_closed = false)
    (h30 : p.message_router.request_timeout = 30)
    (hfresh : p.next_request_id ∉ p.message_router.pending_requests) :
    (p.send_request_start tab_id request).2 = SendStart.awaiting p.next_request_id ∧
    await_response p.message_router.request_timeout AwaitedSlot.noDelivery
      = Except.error (BrowserMcpError.RequestTimeout 30) ∧
    (let r := (p.send_request_start tab_id request).1.message_router
     p.next_request_id ∈ r.pending_requests ∧
     (r.timeout_fire p.next_request_id).pending_requests
        = p.message_router.pending_requests ∧
     (r.timeout_fire p.next_request_id).delivered
        = r.delivered ++ [(p.next_request_id, BrowserResponse.error "Request timeout")] ∧
     p.next_request_id ∉ (r.timeout_fire p.next_request_id).pending_requests) := by
  have hfind' : ConnectionPool.find_connection_for_tab
      { p with next_request_id := p.next_request_id + 1,
               message_router :=
                 p.message_router.register_pending_request p.next_request_id }
      tab_id = some (cid, conn) := hfind
  refine ⟨?_, ?_, ?_, ?_, ?_, ?_⟩
  · unfold ConnectionPool.send_request_start
    simp only [hfind', hopen]
    simp
  · rw [h30]
    rfl
  · unfold ConnectionPool.send_request_start
    simp only [hfind', hopen]
    simp [MessageRouter.register_pending_request]
  · unfold ConnectionPool.send_request_start
    simp only [hfind', hopen]
    simp [MessageRouter.register_pending_request, MessageRouter.timeout_fire]
  · unfold ConnectionPool.send_request_start
    simp only [hfind', hopen]
    simp [MessageRouter.register_pending_request, MessageRouter.timeout_fire]
  · unfold ConnectionPool.send_request_start
    simp only [hfind', hopen]
    simp [MessageRouter.register_pending_request, MessageRouter.timeout_fire, hfresh]

/-- Witness for C3: a pool with one connection bound to tab 9. -/
theorem c3_request_timeout_witness :
    (let p : ConnectionPool :=
      { connections :=
          [(1, { id := 1, sender_queue := [], sender_closed := false,
                 tab_id := some 9, last_activity := 0 })],
        unhealthy_connections := [], message_router := MessageRouter.new 30,
        stats := { total_connections := 1, active_connections := 1, messages_sent := 0,
                   messages_received := 0, connection_errors := 0 },
        next_request_id := 0 }
     (p.send_request_start 9 (BrowserRequest.get_page_content true)).2
        = SendStart.awaiting 0 ∧
     await_response p.message_router.request_timeout AwaitedSlot.noDelivery
        = Except.error (BrowserMcpError.RequestTimeout 30)) := by
  have h := c3_request_timeout
    { connections :=
        [(1, { id := 1, sender_queue := [], sender_closed := false,
               tab_id := some 9, last_activity := 0 })],
      unhealthy_connections := [], message_router := MessageRouter.new 30,
      stats := { total_connections := 1, active_connections := 1, messages_sent := 0,
                 messages_received := 0, connection_errors := 0 },
      next_request_id := 0 }
    9 (BrowserRequest.get_page_content true) 1
    { id := 1, sender_queue := [], sender_closed := false,
      tab_id := some 9, last_activity := 0 }
    (by rfl) rfl rfl (by simp [MessageRouter.new])
  exact ⟨h.1, h.2.1⟩

/-- C10: when the synchronous phase of `send_request` fails — no bound
connection, or the outbound channel is closed — the freshly registered
pending entry is not rolled back: the table now contains the minted id, a
response for any other id leaves it registered, and its timeout task is
what removes it, delivering the timeout error. -/
theorem c10_failed_send_keeps_pending (p : ConnectionPool) (tab_id : Nat)
    (request : BrowserRequest)
    (hfresh : p.next_request_id ∉ p.message_router.pending_requests) :
    (p.send_request_start tab_id request).1.message_router.pending_requests
        = p.next_request_id :: p.message_router.pending_requests ∧
    (p.find_connection_for_tab tab_id = none →
       (p.send_request_start tab_id request).2
          = SendStart.failed (BrowserMcpError.ConnectionNotAvailable tab_id)) ∧
    (∀ cid conn, p.find_connection_for_tab tab_id = some (cid, conn) →
       conn.sender_closed = true →
       (p.send_request_start tab_id request).2
          = SendStart.failed BrowserMcpError.ConnectionClosed) ∧
    (let r := (p.send_request_start tab_id request).1.message_router
     (∀ id res, id ≠ p.next_request_id →
        p.next_request_id ∈ (r.handle_response id res).pending_requests) ∧
     p.next_request_id ∉ (r.timeout_fire p.next_request_id).pending_requests ∧
     (r.timeout_fire p.next_request_id).delivered
        = r.delivered ++ [(p.next_request_id, BrowserResponse.error "Request timeout")]) := by
  have hR : (p.send_request_start tab_id request).1.message_router
      = p.message_router.register_pending_request p.next_request_id := by
    unfold ConnectionPool.send_request_start
    cases hf : ConnectionPool.find_connection_for_tab
        { p with next_request_id := p.next_request_id + 1,
                 message_router :=
                   p.message_router.register_pending_request p.next_request_id }
        tab_id with
    | none => simp only [hf]
    | some kv =>
      obtain ⟨cid, conn⟩ := kv
      by_cases hc : conn.sender_closed
      · simp only [hf]
        rw [if_pos hc]
      · simp only [hf]
        rw [if_neg hc]
  have hpend : (p.send_request_start tab_id request).1.message_router.pending_requests
      = p.next_request_id :: p.message_router.pending_requests := by
    rw [hR]; rfl
  refine ⟨hpend, ?_, ?_, ?_, ?_, ?_⟩
  · intro h
    exact (c4_send_request_no_connection p tab_id request h).1
  · intro cid conn hfind hc
    have hfind' : ConnectionPool.find_connection_for_tab
        { p with next_request_id := p.next_request_id + 1,
                 message_router :=
                   p.message_router.register_pending_request p.next_request_id }
        tab_id = some (cid, conn) := hfind
    unfold ConnectionPool.send_request_start
    simp [hfind', hc]
  · intro id res hne
    rw [hR]
    unfold MessageRouter.handle_response MessageRouter.register_pending_request
    by_cases hc : (p.next_request_id :: p.message_router.pending_requests).contains id
    · simp only [hc, if_true]
      exact (List.mem_erase_of_ne (fun hcontra => hne hcontra.symm)).mpr
        (List.mem_cons_self _ _)
    · simp only [hc, if_false]
      exact List.mem_cons_self _ _
  · rw [hR]
    unfold MessageRouter.timeout_fire MessageRouter.register_pending_request
    simp [List.erase_cons_head, hfresh]
  · rw [hR]
    unfold MessageRouter.timeout_fire MessageRouter.register_pending_request
    simp

/-- Witness for C10: empty pool, no connection for tab 5. -/
theorem c10_failed_send_keeps_pending_witness :
    (ConnectionPool.new.send_request_start 5 BrowserRequest.get_performance_metrics).1.message_router.pending_requests
        = [0] ∧
    (ConnectionPool.new.send_request_start 5 BrowserRequest.get_performance_metrics).2
        = SendStart.failed (BrowserMcpError.ConnectionNotAvailable 5) := by
  have h := c10_failed_send_keeps_pending ConnectionPool.new 5
    BrowserRequest.get_performance_metrics (by simp [ConnectionPool.new, MessageRouter.new])
  exact ⟨h.1, h.2.1 rfl⟩

/-- Delivering into a pending id's slot (shared shape of `handle_response`
and the timeout task) preserves the table invariant. -/
theorem routerInv_deliver (r : MessageRouter) (id : Nat) (v : BrowserResponse)
    (hinv : RouterInv r) (hmem : id ∈ r.pending_requests) :
    RouterInv { r with pending_requests := r.pending_requests.erase id,
                       delivered := r.delivered ++ [(id, v)] } := by
  obtain ⟨hnd, hunfilled, hcount⟩ := hinv
  refine ⟨hnd.erase id, ?_, ?_⟩
  · intro id' hid' kv hkv
    have hmem' := (hnd.mem_erase_iff).mp hid'
    rcases List.mem_append.mp hkv with hold | hnew
    · exact hunfilled id' hmem'.2 kv hold
    · simp only [List.mem_singleton] at hnew
      rw [hnew]
      exact fun hcontra => hmem'.1 hcontra.symm
  · intro id'
    rw [List.map_append, List.count_append]
    by_cases h : id' = id
    · subst h
      have h0 : (r.delivered.map Prod.fst).count id' = 0 := by
        rw [List.count_eq_zero]
        intro hmemmap
        obtain ⟨kv, hkv, hfst⟩ := List.mem_map.mp hmemmap
        exact hunfilled id' hmem kv hkv hfst
      simp [h0]
    · have h1 : (([(id, v)]).map Prod.fst).count id' = 0 := by
        simp [List.count_eq_zero, h]
      rw [h1]
      simpa using hcount id'

/-- C1: the completion slot of every registered request id is fulfilled at
most once. Under the table invariant (and freshness of minted ids), every
step preserves the invariant — in particular no id's slot ever holds two
deliveries; a response or timeout for an id absent from the table is
dropped without any effect; and a delivery (response or timeout) removes
the entry in the same step that fills the slot, the timeout task delivering
only when the entry is still present. -/
theorem c1_slot_single_fulfillment (r : MessageRouter) (e : RouterEvent)
    (hinv : RouterInv r) (hfresh : RouterEventFresh r e) :
    RouterInv (r.step e) ∧
    (∀ id res, e = RouterEvent.response id res → id ∉ r.pending_requests →
       r.step e = r) ∧
    (∀ id, e = RouterEvent.timeout id → id ∉ r.pending_requests → r.step e = r) ∧
    (∀ id res, e = RouterEvent.response id res → id ∈ r.pending_requests →
       id ∉ (r.step e).pending_requests ∧
       (r.step e).delivered = r.delivered ++
         [(id, match res with
               | Except.ok v => v
               | Except.error msg => BrowserResponse.error msg)]) ∧
    (∀ id, e = RouterEvent.timeout id → id ∈ r.pending_requests →
       id ∉ (r.step e).pending_requests ∧
       (r.step e).delivered
          = r.delivered ++ [(id, BrowserResponse.error "Request timeout")]) := by
  obtain ⟨hnd, hunfilled, hcount⟩ := hinv
  cases e with
  | register id =>
    obtain ⟨hidnew, hslotnew⟩ := hfresh
    refine ⟨⟨?_, ?_, hcount⟩, ?_, ?_, ?_, ?_⟩
    · exact List.Nodup.cons hidnew hnd
    · intro id' hid' kv hkv
      rcases List.mem_cons.mp hid' with rfl | hid'
      · exact hslotnew kv hkv
      · exact hunfilled id' hid' kv hkv
    · intro id' res h; cases h
    · intro id' h; cases h
    · intro id' res h; cases h
    · intro id' h; cases h
  | response id res =>
    by_cases hmem : id ∈ r.pending_requests
    · have hc : r.pending_requests.contains id = true := by simpa using hmem
      have hstep : r.step (RouterEvent.response id res)
          = { r with pending_requests := r.pending_requests.erase id,
                     delivered := r.delivered ++
                       [(id, match res with
                             | Except.ok v => v
                             | Except.error msg => BrowserResponse.error msg)] } := by
        show r.handle_response id res = _
        unfold MessageRouter.handle_response
        rw [if_pos hc]
        cases res <;> rfl
      refine ⟨?_, ?_, ?_, ?_, ?_⟩
      · rw [hstep]
        exact routerInv_deliver r id _ ⟨hnd, hunfilled, hcount⟩ hmem
      · intro id' res' h habs
        injection h with h1 h2
        subst h1
        exact absurd hmem habs
      · intro id' h; cases h
      · intro id' res' h hmem'
        injection h with h1 h2
        subst h1; subst h2
        rw [hstep]
        refine ⟨?_, ?_⟩
        · intro habs
          exact ((hnd.mem_erase_iff).mp habs).1 rfl
        · cases res <;> rfl
      · intro id' h; cases h
    · have hc : r.pending_requests.contains id = false := by simpa using hmem
      have hstep : r.step (RouterEvent.response id res) = r := by
        show r.handle_response id res = _
        unfold MessageRouter.handle_response
        rw [hc]
        simp
      refine ⟨?_, ?_, ?_, ?_, ?_⟩
      · rw [hstep]; exact ⟨hnd, hunfilled, hcount⟩
      · intro id' res' h habs; exact hstep
      · intro id' h; cases h
      · intro id' res' h hmem'
        injection h with h1 h2
        subst h1
        exact absurd hmem' hmem
      · intro id' h; cases h
  | timeout id =>
    by_cases hmem : id ∈ r.pending_requests
    · have hc : r.pending_requests.contains id = true := by simpa using hmem
      have hstep : r.step (RouterEvent.timeout id)
          = { r with pending_requests := r.pending_requests.erase id,
                     delivered := r.delivered ++
                       [(id, BrowserResponse.error "Request timeout")] } := by
        show r.timeout_fire id = _
        unfold MessageRouter.timeout_fire
        rw [if_pos hc]
      refine ⟨?_, ?_, ?_, ?_, ?_⟩
      · rw [hstep]
        exact routerInv_deliver r id _ ⟨hnd, hunfilled, hcount⟩ hmem
      · intro id' res' h; cases h
      · intro id' h habs
        injection h with h1
        subst h1
        exact absurd hmem habs
      · intro id' res' h; cases h
      · intro id' h hmem'
        injection h with h1
        subst h1
        rw [hstep]
        refine ⟨?_, rfl⟩
        intro habs
        exact ((hnd.mem_erase_iff).mp habs).1 rfl
    · have hc : r.pending_requests.contains id = false := by simpa using hmem
      have hstep : r.step (RouterEvent.timeout id) = r := by
        show r.timeout_fire id = _
        unfold MessageRouter.timeout_fire
        rw [hc]
        simp
      refine ⟨?_, ?_, ?_, ?_, ?_⟩
      · rw [hstep]; exact ⟨hnd, hunfilled, hcount⟩
      · intro id' res' h; cases h
      · intro id' h habs; exact hstep
      · intro id' res' h; cases h
      · intro id' h hmem'
        injection h with h1
        subst h1
        exact absurd hmem' hmem

/-- Witness for C1: one pending id (5), empty history; its timeout fires. -/
theorem c1_slot_single_fulfillment_witness :
    RouterInv { pending_requests := [5], delivered := [], request_timeout := 30 } ∧
    (5 ∉ (MessageRouter.step
            { pending_requests := [5], delivered := [], request_timeout := 30 }
            (RouterEvent.timeout 5)).pending_requests ∧
     (MessageRouter.step
            { pending_requests := [5], delivered := [], request_timeout := 30 }
            (RouterEvent.timeout 5)).delivered
        = [] ++ [(5, BrowserResponse.error "Request timeout")]) := by
  have hinv : RouterInv { pending_requests := [5], delivered := [], request_timeout := 30 } := by
    refine ⟨by simp, by simp, ?_⟩
    intro id
    simp
  exact ⟨hinv,
    (c1_slot_single_fulfillment
      { pending_requests := [5], delivered := [], request_timeout := 30 }
      (RouterEvent.timeout 5) hinv trivial).2.2.2.2 5 rfl (by simp)⟩

/-- C8: every `POST /mcp` response body carries `jsonrpc: "2.0"` and echoes
the request's `id`; a request without a (string) `"method"` field gets HTTP
400 with JSON-RPC error code `-32600` (still carrying the envelope), and
`notifications/initialized` gets HTTP 200 with an empty body that echoes
nothing — in particular no `id`. -/
theorem c8_mcp_envelope (tool_call : Json → Except String Json) (request : Json) :
    (((request.get "method").bind Json.asStr = none →
       (handle_mcp_request tool_call request).1 = 400 ∧
       ((handle_mcp_request tool_call request).2.get "jsonrpc") = some (Json.str "2.0") ∧
       ((handle_mcp_request tool_call request).2.get "id")
          = some ((request.get "id").getD Json.null) ∧
       (((handle_mcp_request tool_call request).2.get "error").getD Json.null).get "code"
          = some (Json.num (-32600))) ∧
     ((request.get "method").bind Json.asStr = some "notifications/initialized" →
       handle_mcp_request tool_call request = (200, Json.obj []) ∧
       (Json.obj []).get "id" = none) ∧
     (∀ m, (request.get "method").bind Json.asStr = some m →
       m ≠ "notifications/initialized" →
       (handle_mcp_request tool_call request).1 = 200 ∧
       ((handle_mcp_request tool_call request).2.get "jsonrpc") = some (Json.str "2.0") ∧
       ((handle_mcp_request tool_call request).2.get "id")
          = some ((request.get "id").getD Json.null))) := by
  refine ⟨?_, ?_, ?_⟩
  · intro h
    unfold handle_mcp_request
    rw [h]
    exact ⟨rfl, rfl, rfl, rfl⟩
  · intro h
    unfold handle_mcp_request
    rw [h]
    exact ⟨if_pos rfl, rfl⟩
  · intro m h hne
    have henv : ∀ (idj : Json) (result : Except String Json),
        (format_jsonrpc_response idj result).1 = 200 ∧
        ((format_jsonrpc_response idj result).2.get "jsonrpc") = some (Json.str "2.0") ∧
        ((format_jsonrpc_response idj result).2.get "id") = some idj := by
      intro idj result
      cases result <;> exact ⟨rfl, rfl, rfl⟩
    unfold handle_mcp_request
    rw [h]
    simp only [if_neg hne]
    exact henv _ _

/-- Witness for C8: three literal requests — one without `method`, the
`notifications/initialized` notification, and an `initialize` call. -/
theorem c8_mcp_envelope_witness :
    (let badReq := Json.obj [("jsonrpc", Json.str "2.0"), ("id", Json.num 1)]
     let toolCall : Json → Except String Json := fun _ => Except.error "unused"
     (handle_mcp_request toolCall badReq).1 = 400 ∧
     ((handle_mcp_request toolCall badReq).2.get "id") = some (Json.num 1) ∧
     (((handle_mcp_request toolCall badReq).2.get "error").getD Json.null).get "code"
        = some (Json.num (-32600))) ∧
    (let notifReq := Json.obj
        [("jsonrpc", Json.str "2.0"), ("method", Json.str "notifications/initialized")]
     let toolCall : Json → Except String Json := fun _ => Except.error "unused"
     handle_mcp_request toolCall notifReq = (200, Json.obj [])) ∧
    (let initReq := Json.obj
        [("jsonrpc", Json.str "2.0"), ("id", Json.num 1), ("method", Json.str "initialize")]
     let toolCall : Json → Except String Json := fun _ => Except.error "unused"
     (handle_mcp_request toolCall initReq).1 = 200 ∧
     ((handle_mcp_request toolCall initReq).2.get "jsonrpc") = some (Json.str "2.0") ∧
     ((handle_mcp_request toolCall initReq).2.get "id") = some (Json.num 1)) := by
  refine ⟨?_, ?_, ?_⟩
  · have h := (c8_mcp_envelope (fun _ => Except.error "unused")
      (Json.obj [("jsonrpc", Json.str "2.0"), ("id", Json.num 1)])).1 rfl
    exact ⟨h.1, h.2.2.1, h.2.2.2⟩
  · exact ((c8_mcp_envelope (fun _ => Except.error "unused")
      (Json.obj [("jsonrpc", Json.str "2.0"),
                 ("method", Json.str "notifications/initialized")])).2.1 rfl).1
  · have h := (c8_mcp_envelope (fun _ => Except.error "unused")
      (Json.obj [("jsonrpc", Json.str "2.0"), ("id", Json.num 1),
                 ("method", Json.str "initialize")])).2.2 "initialize" rfl
      (by decide)
    exact ⟨h.1, h.2.1, h.2.2⟩

/-- The pop-front loop is a `drop` of the overflow. -/
theorem trimFrontWhileGt_eq_drop (cap : Nat) : ∀ (q : List α),
    trimFrontWhileGt cap q = q.drop (q.length - cap)
  | [] => by simp [trimFrontWhileGt]
  | x :: xs => by
    unfold trimFrontWhileGt
    by_cases h : xs.length + 1 > cap
    · rw [if_pos h, trimFrontWhileGt_eq_drop cap xs]
      have hidx : (x :: xs).length - cap = (xs.length - cap) + 1 := by
        simp only [List.length_cons]; omega
      rw [hidx, List.drop_succ_cons]
    · rw [if_neg h]
      have hidx : (x :: xs).length - cap = 0 := by
        simp only [List.length_cons]; omega
      rw [hidx, List.drop_zero]

/-- The trimmed buffer never exceeds the cap. -/
theorem length_trimFrontWhileGt_le (cap : Nat) (q : List α) :
    (trimFrontWhileGt cap q).length ≤ cap := by
  rw [trimFrontWhileGt_eq_drop, List.length_drop]
  omega

/-- A pointwise property survives a `mapInsert`. -/
theorem forall_mem_mapInsert {P : Nat × α → Prop} {m : List (Nat × α)} {k : Nat} {v : α}
    (hm : ∀ kv ∈ m, P kv) (hv : P (k, v)) :
    ∀ kv ∈ mapInsert k v m, P kv := by
  intro kv hkv
  rcases mem_mapInsert hkv with heq | hmem
  · rw [heq]; exact hv
  · exact hm kv hmem

/-- `ensure_tab_data_exists` preserves the bounded-log invariant. -/
theorem boundedLogs_ensure (now tab_id : Nat) (c : BrowserDataCache)
    (h : BoundedLogs c) : BoundedLogs (c.ensure_tab_data_exists now tab_id) := by
  unfold BrowserDataCache.ensure_tab_data_exists
  cases hl : mapLookup tab_id c.tab_data with
  | some d => exact h
  | none =>
    intro kv hkv
    rcases mem_mapInsert hkv with heq | hmem
    · rw [heq]; exact ⟨by simp, by simp⟩
    · exact h kv hmem

/-- Folded `remove_tab_data` steps only shrink the tab map. -/
theorem foldl_remove_tab_data_subset {β : Type} (f : β → Nat) :
    ∀ (l : List β) (c : BrowserDataCache) (kv : Nat × TabData),
      kv ∈ (l.foldl (fun acc x => acc.remove_tab_data (f x)) c).tab_data →
      kv ∈ c.tab_data := by
  intro l
  induction l with
  | nil => intro c kv h; exact h
  | cons b bs ih =>
    intro c kv h
    have h' := ih (c.remove_tab_data (f b)) kv h
    exact List.mem_of_mem_filter h'

/-- Every cache operation preserves the bounded-log invariant. -/
theorem boundedLogs_applyCacheOp (now : Nat) (op : CacheOp) (c : BrowserDataCache)
    (h : BoundedLogs c) : BoundedLogs (applyCacheOp now op c) := by
  cases op with
  | updatePageContent tab_id content =>
    simp only [applyCacheOp, BrowserDataCache.update_page_content]
    refine forall_mem_mapInsert h ?_
    cases hl : mapLookup tab_id c.tab_data with
    | some d => exact h (tab_id, d) (mapLookup_mem hl)
    | none => exact ⟨by simp, by simp⟩
  | updateDomSnapshot tab_id snapshot =>
    simp only [applyCacheOp, BrowserDataCache.update_dom_snapshot]
    refine forall_mem_mapInsert h ?_
    cases hl : mapLookup tab_id c.tab_data with
    | some d => exact h (tab_id, d) (mapLookup_mem hl)
    | none => exact ⟨by simp, by simp⟩
  | updatePerformanceMetrics tab_id metrics =>
    simp only [applyCacheOp, BrowserDataCache.update_performance_metrics]
    refine forall_mem_mapInsert h ?_
    cases hl : mapLookup tab_id c.tab_data with
    | some d => exact h (tab_id, d) (mapLookup_mem hl)
    | none => exact ⟨by simp, by simp⟩
  | updateAccessibilityTree tab_id tree =>
    simp only [applyCacheOp, BrowserDataCache.update_accessibility_tree]
    refine forall_mem_mapInsert h ?_
    cases hl : mapLookup tab_id c.tab_data with
    | some d => exact h (tab_id, d) (mapLookup_mem hl)
    | none => exact ⟨by simp, by simp⟩
  | updateScreenshot tab_id screenshot =>
    simp only [applyCacheOp, BrowserDataCache.update_screenshot]
    refine forall_mem_mapInsert h ?_
    cases hl : mapLookup tab_id c.tab_data with
    | some d => exact h (tab_id, d) (mapLookup_mem hl)
    | none => exact ⟨by simp, by simp⟩
  | setDebuggerAttached tab_id attached =>
    simp only [applyCacheOp, BrowserDataCache.set_debugger_attached]
    cases hl : mapLookup tab_id c.tab_data with
    | some d =>
      refine forall_mem_mapInsert h ?_
      exact h (tab_id, d) (mapLookup_mem hl)
    | none => exact h
  | addConsoleMessage tab_id message =>
    simp only [applyCacheOp, BrowserDataCache.add_console_message]
    have hens := boundedLogs_ensure now tab_id c h
    cases hl : mapLookup tab_id (c.ensure_tab_data_exists now tab_id).tab_data with
    | none => exact hens
    | some d =>
      refine forall_mem_mapInsert hens ?_
      exact ⟨length_trimFrontWhileGt_le 1000 _,
             (hens (tab_id, d) (mapLookup_mem hl)).2⟩
  | addNetworkRequest tab_id request =>
    simp only [applyCacheOp, BrowserDataCache.add_network_request]
    have hens := boundedLogs_ensure now tab_id c h
    cases hl : mapLookup tab_id (c.ensure_tab_data_exists now tab_id).tab_data with
    | none => exact hens
    | some d =>
      refine forall_mem_mapInsert hens ?_
      exact ⟨(hens (tab_id, d) (mapLookup_mem hl)).1,
             length_trimFrontWhileGt_le 500 _⟩
  | removeTabData tab_id =>
    simp only [applyCacheOp, BrowserDataCache.remove_tab_data]
    intro kv hkv
    exact h kv (List.mem_of_mem_filter hkv)
  | cleanupStaleData =>
    simp only [applyCacheOp, BrowserDataCache.cleanup_stale_data]
    intro kv hkv
    split at hkv
    · have h1 := foldl_remove_tab_data_subset Prod.fst _ _ kv hkv
      have h2 := foldl_remove_tab_data_subset (fun x : Nat => x) _ _ kv h1
      exact h kv h2
    · have h2 := foldl_remove_tab_data_subset (fun x : Nat => x) _ _ kv hkv
      exact h kv h2

/-- The invariant holds along any operation sequence. -/
theorem boundedLogs_foldl (ops : List (Nat × CacheOp)) :
    ∀ c, BoundedLogs c →
      BoundedLogs (ops.foldl (fun c p => applyCacheOp p.1 p.2 c) c) := by
  induction ops with
  | nil => intro c h; exact h
  | cons p ps ih =>
    intro c h
    exact ih _ (boundedLogs_applyCacheOp p.1 p.2 c h)


/-- `add_console_message` on a present tab: append then trim. -/
theorem add_console_lookup_some (c : BrowserDataCache) (now tab_id : Nat)
    (m : ConsoleMessage) (d : TabData) (h : mapLookup tab_id c.tab_data = some d) :
    mapLookup tab_id ((c.add_console_message now tab_id m).tab_data)
      = some { d with console_logs := trimFrontWhileGt 1000 (d.console_logs ++ [m]) } := by
  simp only [BrowserDataCache.add_console_message, BrowserDataCache.ensure_tab_data_exists, h]
  exact mapLookup_insert_self _ _ _

/-- `add_network_request` on a present tab: append then trim. -/
theorem add_network_lookup_some (c : BrowserDataCache) (now tab_id : Nat)
    (req : NetworkRequest) (d : TabData) (h : mapLookup tab_id c.tab_data = some d) :
    mapLookup tab_id ((c.add_network_request now tab_id req).tab_data)
      = some { d with network_data := trimFrontWhileGt 500 (d.network_data ++ [req]) } := by
  simp only [BrowserDataCache.add_network_request, BrowserDataCache.ensure_tab_data_exists, h]
  exact mapLookup_insert_self _ _ _

/-- `add_console_message` on a missing tab creates the record and appends. -/
theorem add_console_lookup_none (c : BrowserDataCache) (now tab_id : Nat)
    (m : ConsoleMessage) (h : mapLookup tab_id c.tab_data = none) :
    mapLookup tab_id ((c.add_console_message now tab_id m).tab_data)
      = some { tab_id := tab_id, page_content := none, dom_snapshot := none,
               console_logs := [m], network_data := [], performance_metrics := none,
               accessibility_tree := none, screenshot_data := none,
               debugger_attached := false, last_updated := now } := by
  simp only [BrowserDataCache.add_console_message, BrowserDataCache.ensure_tab_data_exists, h]
  simp only [mapLookup_insert_self]
  simp [trimFrontWhileGt]

set_option maxRecDepth 4000 in
/-- Repeated trimmed appends from a within-bounds buffer keep the most
recent 1000 entries. -/
theorem foldl_trim_append (msgs : List ConsoleMessage) :
    ∀ (q : List ConsoleMessage), q.length ≤ 1000 →
      msgs.foldl (fun acc m => trimFrontWhileGt 1000 (acc ++ [m])) q
        = (q ++ msgs).drop (q.length + msgs.length - 1000) := by
  induction msgs with
  | nil =>
    intro q hq
    simp [Nat.sub_eq_zero_of_le hq]
  | cons m ms ih =>
    intro q hq
    rw [List.foldl_cons]
    have hstep : trimFrontWhileGt 1000 (q ++ [m]) = (q ++ [m]).drop (q.length + 1 - 1000) := by
      rw [trimFrontWhileGt_eq_drop]
      simp
    rw [hstep]
    have hlen : ((q ++ [m]).drop (q.length + 1 - 1000)).length ≤ 1000 := by
      rw [List.length_drop]
      simp only [List.length_append, List.length_singleton]
      omega
    rw [ih _ hlen]
    have h1 : ((q ++ [m]) ++ ms).drop (q.length + 1 - 1000)
        = (q ++ [m]).drop (q.length + 1 - 1000) ++ ms := by
      rw [List.drop_append_eq_append_drop]
      have h0 : q.length + 1 - 1000 - (q ++ [m]).length = 0 := by
        simp only [List.length_append, List.length_singleton]
        omega
      rw [h0, List.drop_zero]
    rw [← h1, List.drop_drop]
    rw [List.append_assoc, List.singleton_append]
    have hidx : q.length + 1 - 1000
        + (((q ++ [m]).drop (q.length + 1 - 1000)).length + ms.length - 1000)
        = q.length + (m :: ms).length - 1000 := by
      simp only [List.length_drop, List.length_append, List.length_cons, List.length_nil]
      omega
    rw [hidx]

/-- Folding console appends over a present tab folds the trimmed appends
over its buffer. -/
theorem cache_fold_console (msgs : List ConsoleMessage) :
    ∀ (c : BrowserDataCache) (now tab_id : Nat) (d : TabData),
      mapLookup tab_id c.tab_data = some d →
      mapLookup tab_id
          ((msgs.foldl (fun acc m => acc.add_console_message now tab_id m) c).tab_data)
        = some
            { d with
              console_logs :=
                msgs.foldl (fun q m => trimFrontWhileGt 1000 (q ++ [m])) d.console_logs } := by
  induction msgs with
  | nil =>
    intro c now tab_id d h
    simpa using h
  | cons m ms ih =>
    intro c now tab_id d h
    rw [List.foldl_cons]
    have hadd := add_console_lookup_some c now tab_id m d h
    have hres := ih _ now tab_id _ hadd
    rw [hres]
    rfl

/-- C2: every cache operation preserves the per-tab bounds (console ≤ 1000,
network ≤ 500) — in particular every state reachable from a fresh cache
satisfies them; an overflowing append drops exactly the oldest entries; and
pushing messages 0..1199 to a tab leaves exactly pushes 201 through 1200
(values 200..1199) in order. -/
theorem c2_bounded_logs :
    (∀ (now : Nat) (op : CacheOp) (c : BrowserDataCache),
        BoundedLogs c → BoundedLogs (applyCacheOp now op c)) ∧
    (∀ (ops : List (Nat × CacheOp)) (max_cache_size data_ttl : Nat),
        BoundedLogs (ops.foldl (fun c p => applyCacheOp p.1 p.2 c)
          (BrowserDataCache.new max_cache_size data_ttl))) ∧
    (∀ (c : BrowserDataCache) (now tab_id : Nat) (m : ConsoleMessage) (d : TabData),
        mapLookup tab_id c.tab_data = some d →
        (c.add_console_message now tab_id m).get_console_logs tab_id
          = some ((d.console_logs ++ [m]).drop (d.console_logs.length + 1 - 1000))) ∧
    (∀ (c : BrowserDataCache) (now tab_id : Nat) (req : NetworkRequest) (d : TabData),
        mapLookup tab_id c.tab_data = some d →
        (c.add_network_request now tab_id req).get_network_requests tab_id
          = some ((d.network_data ++ [req]).drop (d.network_data.length + 1 - 500))) ∧
    (((List.range 1200).foldl (fun c m => c.add_console_message 0 3 m)
        (BrowserDataCache.new 100 60)).get_console_logs 3
      = some ((List.range 1200).drop 200)) := by
  refine ⟨boundedLogs_applyCacheOp, ?_, ?_, ?_, ?_⟩
  · intro ops max_cache_size data_ttl
    refine boundedLogs_foldl ops _ ?_
    intro kv hkv
    simp [BrowserDataCache.new] at hkv
  · intro c now tab_id m d h
    unfold BrowserDataCache.get_console_logs
    rw [add_console_lookup_some c now tab_id m d h]
    simp [trimFrontWhileGt_eq_drop]
  · intro c now tab_id req d h
    unfold BrowserDataCache.get_network_requests
    rw [add_network_lookup_some c now tab_id req d h]
    simp [trimFrontWhileGt_eq_drop]
  · have hdecomp : List.range 1200 = 0 :: (List.range 1199).map Nat.succ :=
      List.range_succ_eq_map 1199
    rw [hdecomp, List.foldl_cons]
    have hcreate := add_console_lookup_none (BrowserDataCache.new 100 60) 0 3 0 rfl
    have hfold := cache_fold_console ((List.range 1199).map Nat.succ) _ 0 3 _ hcreate
    unfold BrowserDataCache.get_console_logs
    rw [hfold]
    simp only [Option.map_some']
    have hlist := foldl_trim_append ((List.range 1199).map Nat.succ) [0] (by simp)
    show some (List.foldl (fun q m => trimFrontWhileGt 1000 (q ++ [m])) [0]
        ((List.range 1199).map Nat.succ))
      = some ((0 :: (List.range 1199).map Nat.succ).drop 200)
    rw [hlist]
    simp

/-- Witness for C2: a cache holding tab 3 with console log `[1, 2]` and
network log `[4]`; an append keeps order and the bound invariant. -/
theorem c2_bounded_logs_witness :
    (({ tab_data :=
          [(3, { tab_id := 3, page_content := none, dom_snapshot := none,
                 console_logs := [1, 2], network_data := [4],
                 performance_metrics := none, accessibility_tree := none,
                 screenshot_data := none, debugger_attached := false,
                 last_updated := 0 })],
        connection_tabs := [], tab_connections := [],
        max_cache_size := 10, data_ttl := 60 } : BrowserDataCache).add_console_message
          0 3 7).get_console_logs 3 = some [1, 2, 7] ∧
    BoundedLogs (applyCacheOp 0 (CacheOp.addConsoleMessage 3 7)
      { tab_data :=
          [(3, { tab_id := 3, page_content := none, dom_snapshot := none,
                 console_logs := [1, 2], network_data := [4],
                 performance_metrics := none, accessibility_tree := none,
                 screenshot_data := none, debugger_attached := false,
                 last_updated := 0 })],
        connection_tabs := [], tab_connections := [],
        max_cache_size := 10, data_ttl := 60 }) := by
  constructor
  · have h := c2_bounded_logs.2.2.1
      { tab_data :=
          [(3, { tab_id := 3, page_content := none, dom_snapshot := none,
                 console_logs := [1, 2], network_data := [4],
                 performance_metrics := none, accessibility_tree := none,
                 screenshot_data := none, debugger_attached := false,
                 last_updated := 0 })],
        connection_tabs := [], tab_connections := [],
        max_cache_size := 10, data_ttl := 60 }
      0 3 7
      { tab_id := 3, page_content := none, dom_snapshot := none,
        console_logs := [1, 2], network_data := [4],
        performance_metrics := none, accessibility_tree := none,
        screenshot_data := none, debugger_attached := false,
        last_updated := 0 }
      rfl
    simpa using h
  · refine c2_bounded_logs.1 0 (CacheOp.addConsoleMessage 3 7) _ ?_
    intro kv hkv
    simp only [List.mem_singleton] at hkv
    subst hkv
    exact ⟨by simp, by simp⟩

/-- The TTL sweep loop of `cleanup_stale_data` is a filter on keys. -/
theorem foldl_remove_ids_tab_data : ∀ (l : List Nat) (c : BrowserDataCache),
    (l.foldl (fun acc tab_id => acc.remove_tab_data tab_id) c).tab_data
      = c.tab_data.filter (fun kv => kv.1 ∉ l) := by
  intro l
  induction l with
  | nil => intro c; simp
  | cons a l ih =>
    intro c
    rw [List.foldl_cons, ih]
    show (c.tab_data.filter (fun kv => kv.1 ≠ a)).filter (fun kv => kv.1 ∉ l) = _
    rw [List.filter_filter]
    apply List.filter_congr
    intro kv _
    by_cases h1 : kv.1 = a <;> by_cases h2 : kv.1 ∈ l <;> simp [h1, h2]

/-- The LRU eviction loop of `cleanup_stale_data` is a filter on keys. -/
theorem foldl_remove_pairs_tab_data : ∀ (l : List (Nat × Nat)) (c : BrowserDataCache),
    (l.foldl (fun acc kv => acc.remove_tab_data kv.1) c).tab_data
      = c.tab_data.filter (fun kv => kv.1 ∉ l.map Prod.fst) := by
  intro l
  induction l with
  | nil => intro c; simp
  | cons a l ih =>
    intro c
    rw [List.foldl_cons, ih]
    show (c.tab_data.filter (fun kv => kv.1 ≠ a.1)).filter
        (fun kv => kv.1 ∉ l.map Prod.fst) = _
    rw [List.filter_filter]
    apply List.filter_congr
    intro kv _
    by_cases h1 : kv.1 = a.1 <;> by_cases h2 : kv.1 ∈ l.map Prod.fst <;> simp [h1, h2]

/-- The TTL sweep does not touch the configuration fields. -/
theorem foldl_remove_ids_config : ∀ (l : List Nat) (c : BrowserDataCache),
    (l.foldl (fun acc tab_id => acc.remove_tab_data tab_id) c).max_cache_size
        = c.max_cache_size ∧
    (l.foldl (fun acc tab_id => acc.remove_tab_data tab_id) c).data_ttl = c.data_ttl := by
  intro l
  induction l with
  | nil => intro c; exact ⟨rfl, rfl⟩
  | cons a l ih => intro c; exact ih (c.remove_tab_data a)

/-- In a no-duplicate-key map, a key is among the keys of a filtered
sub-map exactly when its own entry passes the filter. -/
theorem mem_filter_keys_iff {m : List (Nat × TabData)}
    (hnd : (m.map Prod.fst).Nodup) (p : Nat × TabData → Bool)
    {kv : Nat × TabData} (hkv : kv ∈ m) :
    kv.1 ∈ (m.filter p).map Prod.fst ↔ p kv = true := by
  constructor
  · intro h
    obtain ⟨kv', hkv', hfst⟩ := List.mem_map.mp h
    have hm' := List.mem_of_mem_filter hkv'
    have : kv' = kv := keyNodup_inj hnd hm' hkv hfst
    subst this
    exact (List.mem_filter.mp hkv').2
  · intro h
    exact List.mem_map_of_mem Prod.fst (List.mem_filter.mpr ⟨hkv, h⟩)

/-- Removing a no-duplicate set of present keys from a no-duplicate-key map
drops exactly that many entries. -/
theorem length_filter_not_mem_keys {m : List (Nat × TabData)} {K : List Nat}
    (hndm : (m.map Prod.fst).Nodup) (hndK : K.Nodup)
    (hsub : ∀ k ∈ K, k ∈ m.map Prod.fst) :
    (m.filter (fun kv => kv.1 ∉ K)).length = m.length - K.length := by
  have hsplit : (m.filter (fun kv => kv.1 ∈ K)).length
      + (m.filter (fun kv => kv.1 ∉ K)).length = m.length := by
    rw [← List.countP_eq_length_filter, ← List.countP_eq_length_filter]
    have := List.length_eq_countP_add_countP (fun kv : Nat × TabData => kv.1 ∈ K) m
    simp only [this]
    congr 1
    apply List.countP_congr
    intro kv _
    simp
  have hin : (m.filter (fun kv => kv.1 ∈ K)).length = K.length := by
    rw [← List.countP_eq_length_filter]
    have hmapped : List.countP (fun kv : Nat × TabData => kv.1 ∈ K) m
        = List.countP (fun k => k ∈ K) (m.map Prod.fst) := by
      rw [List.countP_map]
      rfl
    rw [hmapped, List.countP_eq_length_filter]
    have hperm : List.Perm ((m.map Prod.fst).filter (fun k => k ∈ K)) K := by
      rw [List.perm_ext_iff_of_nodup (hndm.filter _) hndK]
      intro a
      simp only [List.mem_filter, decide_eq_true_eq]
      exact ⟨fun h => h.2, fun h => ⟨hsub a h, h⟩⟩
    exact hperm.length_eq
  omega

/-- In a sorted list, everything taken from the front is bounded by
everything left after the cut. -/
theorem take_le_drop_of_pairwise {l : List (Nat × Nat)} {n : Nat}
    (hp : l.Pairwise (fun a b => a.2 ≤ b.2)) :
    ∀ x ∈ l.take n, ∀ y ∈ l.drop n, x.2 ≤ y.2 := by
  have hsplit : l.take n ++ l.drop n = l := List.take_append_drop n l
  rw [← hsplit] at hp
  exact (List.pairwise_append.mp hp).2.2

/-- C5: `cleanup_stale_data` first removes every tab whose `last_updated`
lies more than `data_ttl` before `now`; then, if the survivors still exceed
`max_cache_size`, it removes exactly `survivors − max_cache_size` further
tabs, ones with the smallest `last_updated`; fresh tabs not among those
oldest are retained. -/
theorem c5_cleanup_stale_data (c : BrowserDataCache) (now : Nat)
    (hnd : (c.tab_data.map Prod.fst).Nodup) :
    (∀ kv ∈ c.tab_data, now - kv.2.last_updated > c.data_ttl →
       kv.1 ∉ (BrowserDataCache.cleanup_stale_data now c).tab_data.map Prod.fst) ∧
    (∀ kv ∈ (BrowserDataCache.cleanup_stale_data now c).tab_data,
       kv ∈ c.tab_data ∧ ¬ now - kv.2.last_updated > c.data_ttl) ∧
    ((c.tab_data.filter fun kv => ¬ now - kv.2.last_updated > c.data_ttl).length
        ≤ c.max_cache_size →
      (BrowserDataCache.cleanup_stale_data now c).tab_data
        = c.tab_data.filter fun kv => ¬ now - kv.2.last_updated > c.data_ttl) ∧
    ((c.tab_data.filter fun kv => ¬ now - kv.2.last_updated > c.data_ttl).length
        > c.max_cache_size →
      ((BrowserDataCache.cleanup_stale_data now c).tab_data.length = c.max_cache_size ∧
       (∀ kv ∈ c.tab_data, ¬ now - kv.2.last_updated > c.data_ttl →
          kv.1 ∉ (BrowserDataCache.cleanup_stale_data now c).tab_data.map Prod.fst →
          ∀ kv' ∈ (BrowserDataCache.cleanup_stale_data now c).tab_data,
            kv.2.last_updated ≤ kv'.2.last_updated))) := by
  set S : List Nat :=
    (c.tab_data.filter fun kv => now - kv.2.last_updated > c.data_ttl).map Prod.fst
    with hS
  set c1 : BrowserDataCache :=
    S.foldl (fun acc tab_id => acc.remove_tab_data tab_id) c with hc1
  have hcfg := foldl_remove_ids_config S c
  rw [← hc1] at hcfg
  have h1 : c1.tab_data
      = c.tab_data.filter (fun kv => ¬ now - kv.2.last_updated > c.data_ttl) := by
    rw [hc1, foldl_remove_ids_tab_data]
    apply List.filter_congr
    intro kv hkv
    rw [hS]
    simp only [decide_eq_decide]
    have hiff2 : kv.1 ∈ ((c.tab_data.filter fun kv =>
        now - kv.2.last_updated > c.data_ttl).map Prod.fst)
        ↔ now - kv.2.last_updated > c.data_ttl := by
      rw [mem_filter_keys_iff hnd _ hkv]
      simp
    exact not_congr hiff2
  have hkey : BrowserDataCache.cleanup_stale_data now c
      = if c1.tab_data.length > c1.max_cache_size then
          (((c1.tab_data.map (fun kv => (kv.1, kv.2.last_updated))).mergeSort
              (fun a b => a.2 ≤ b.2)).take
            ((c1.tab_data.map (fun kv => (kv.1, kv.2.last_updated))).length
              - c1.max_cache_size)).foldl
            (fun acc kv => acc.remove_tab_data kv.1) c1
        else c1 := by
    rw [hc1, hS]
    rfl
  have hnd1 : (c1.tab_data.map Prod.fst).Nodup := by
    rw [h1]
    exact ((List.filter_sublist _).map Prod.fst).nodup hnd
  have hsub : ∀ kv ∈ (BrowserDataCache.cleanup_stale_data now c).tab_data,
      kv ∈ c1.tab_data := by
    rw [hkey]
    split
    · rw [foldl_remove_pairs_tab_data]
      intro kv hkv
      exact List.mem_of_mem_filter hkv
    · intro kv hkv
      exact hkv
  have hretained : ∀ kv ∈ (BrowserDataCache.cleanup_stale_data now c).tab_data,
      kv ∈ c.tab_data ∧ ¬ now - kv.2.last_updated > c.data_ttl := by
    intro kv hkv
    have h2 := hsub kv hkv
    rw [h1] at h2
    have h3 := List.mem_filter.mp h2
    exact ⟨h3.1, by simpa using h3.2⟩
  have hstale_gone : ∀ kv ∈ c.tab_data, now - kv.2.last_updated > c.data_ttl →
      kv.1 ∉ (BrowserDataCache.cleanup_stale_data now c).tab_data.map Prod.fst := by
    intro kv hkv hstale hmemk
    obtain ⟨kv', hkv', hfst⟩ := List.mem_map.mp hmemk
    have h2 := hretained kv' hkv'
    have : kv' = kv := keyNodup_inj hnd h2.1 hkv hfst
    subst this
    exact h2.2 hstale
  have hlen1 : c1.tab_data.length
      = (c.tab_data.filter fun kv => ¬ now - kv.2.last_updated > c.data_ttl).length := by
    rw [h1]
  refine ⟨hstale_gone, hretained, ?_, ?_⟩
  · intro hle
    have hcap : ¬ c1.tab_data.length > c1.max_cache_size := by
      rw [hlen1, hcfg.1]
      omega
    rw [hkey, if_neg hcap]
    exact h1
  · intro hgt
    have hcap : c1.tab_data.length > c1.max_cache_size := by
      rw [hlen1, hcfg.1]
      omega
    have hres : (BrowserDataCache.cleanup_stale_data now c).tab_data
        = c1.tab_data.filter (fun kv => kv.1 ∉
            (((c1.tab_data.map (fun kv => (kv.1, kv.2.last_updated))).mergeSort
                (fun a b => a.2 ≤ b.2)).take
              ((c1.tab_data.map (fun kv => (kv.1, kv.2.last_updated))).length
                - c1.max_cache_size)).map Prod.fst) := by
      rw [hkey, if_pos hcap, foldl_remove_pairs_tab_data]
    set entries : List (Nat × Nat) :=
      c1.tab_data.map (fun kv => (kv.1, kv.2.last_updated)) with hentries
    set sorted : List (Nat × Nat) :=
      entries.mergeSort (fun a b => a.2 ≤ b.2) with hsorted
    set t : Nat := entries.length - c1.max_cache_size with ht
    set K : List Nat := (sorted.take t).map Prod.fst with hK
    have hperm : List.Perm sorted entries := by
      rw [hsorted]
      exact List.mergeSort_perm entries _
    have hkeys_entries : entries.map Prod.fst = c1.tab_data.map Prod.fst := by
      rw [hentries, List.map_map]
      rfl
    have hnd_sorted : (sorted.map Prod.fst).Nodup := by
      have hp := hperm.map Prod.fst
      rw [hkeys_entries] at hp
      exact hp.nodup_iff.mpr hnd1
    have hndK : K.Nodup := by
      rw [hK, List.map_take]
      exact (List.take_sublist t _).nodup hnd_sorted
    have hsubK : ∀ k ∈ K, k ∈ c1.tab_data.map Prod.fst := by
      intro k hk
      rw [hK, List.map_take] at hk
      have h2 : k ∈ sorted.map Prod.fst := (List.take_sublist t _).mem hk
      have hp := hperm.map Prod.fst
      rw [hkeys_entries] at hp
      exact hp.mem_iff.mp h2
    have hlensorted : sorted.length = c1.tab_data.length := by
      rw [hperm.length_eq, hentries, List.length_map]
    have hlenK : K.length = t := by
      rw [hK, List.length_map, List.length_take, hlensorted]
      rw [ht, hentries, List.length_map]
      omega
    constructor
    · rw [hres, length_filter_not_mem_keys hnd1 hndK hsubK, hlenK, ht, hentries,
          List.length_map, hcfg.1.symm]
      omega
    · intro kv hkvc hfreshkv hnotin kv' hkv'
      have hkv1 : kv ∈ c1.tab_data := by
        rw [h1]
        refine List.mem_filter.mpr ⟨hkvc, ?_⟩
        simpa using hfreshkv
      have hkvK : kv.1 ∈ K := by
        by_contra hout
        apply hnotin
        refine List.mem_map_of_mem Prod.fst ?_
        rw [hres]
        refine List.mem_filter.mpr ⟨hkv1, ?_⟩
        simpa using hout
      obtain ⟨x, hxtake, hxfst⟩ := List.mem_map.mp hkvK
      have hxentries : x ∈ entries := hperm.mem_iff.mp ((List.take_sublist t sorted).mem hxtake)
      obtain ⟨kv0, hkv0, hx0⟩ := List.mem_map.mp (hentries ▸ hxentries)
      have hkv0eq : kv0 = kv := by
        apply keyNodup_inj hnd1 hkv0 hkv1
        rw [← hxfst, ← hx0]
      have hx2 : x.2 = kv.2.last_updated := by
        rw [← hx0, hkv0eq]
      have hkv'1 : kv' ∈ c1.tab_data := hsub kv' hkv'
      have hkv'K : kv'.1 ∉ K := by
        intro hin
        have h2 := List.mem_filter.mp (hres ▸ hkv')
        have := h2.2
        simp at this
        exact this hin
      have hy : (kv'.1, kv'.2.last_updated) ∈ sorted := by
        apply hperm.mem_iff.mpr
        rw [hentries]
        exact List.mem_map_of_mem _ hkv'1
      have hysplit : (kv'.1, kv'.2.last_updated) ∈ sorted.take t
          ∨ (kv'.1, kv'.2.last_updated) ∈ sorted.drop t := by
        rw [← List.take_append_drop t sorted] at hy
        exact List.mem_append.mp hy
      have hydrop : (kv'.1, kv'.2.last_updated) ∈ sorted.drop t := by
        rcases hysplit with h2 | h2
        · exact absurd (List.mem_map_of_mem Prod.fst h2) hkv'K
        · exact h2
      have hpw : sorted.Pairwise (fun a b : Nat × Nat => a.2 ≤ b.2) := by
        have htrans : ∀ a b c2 : Nat × Nat,
            (decide (a.2 ≤ b.2)) = true → (decide (b.2 ≤ c2.2)) = true →
            (decide (a.2 ≤ c2.2)) = true := by
          intro a b c2 hab hbc
          simp only [decide_eq_true_eq] at hab hbc ⊢
          omega
        have htotal : ∀ a b : Nat × Nat,
            ((decide (a.2 ≤ b.2)) || (decide (b.2 ≤ a.2))) = true := by
          intro a b
          rcases Nat.le_total a.2 b.2 with h2 | h2 <;> simp [h2]
        have hsorted2 := List.sorted_mergeSort htrans htotal entries
        rw [← hsorted] at hsorted2
        exact hsorted2.imp (by intro a b hab; simpa using hab)
      have := take_le_drop_of_pairwise hpw _ hxtake _ hydrop
      rw [hx2] at this
      exact this

/-- Witness for C5: three tabs at time 200 with TTL 150 and cap 1 — tab 1
(age 200) is stale; of the fresh tabs 2 and 3, the older (tab 2, stamp 50)
is evicted, leaving exactly one tab. -/
theorem c5_cleanup_stale_data_witness :
    ((⟨[(1, ⟨1, none, none, [], [], none, none, none, false, 0⟩),
        (2, ⟨2, none, none, [], [], none, none, none, false, 50⟩),
        (3, ⟨3, none, none, [], [], none, none, none, false, 100⟩)],
       [], [], 1, 150⟩ : BrowserDataCache).tab_data.map Prod.fst).Nodup ∧
    (BrowserDataCache.cleanup_stale_data 200
      (⟨[(1, ⟨1, none, none, [], [], none, none, none, false, 0⟩),
         (2, ⟨2, none, none, [], [], none, none, none, false, 50⟩),
         (3, ⟨3, none, none, [], [], none, none, none, false, 100⟩)],
        [], [], 1, 150⟩ : BrowserDataCache)).tab_data.length = 1 ∧
    1 ∉ (BrowserDataCache.cleanup_stale_data 200
      (⟨[(1, ⟨1, none, none, [], [], none, none, none, false, 0⟩),
         (2, ⟨2, none, none, [], [], none, none, none, false, 50⟩),
         (3, ⟨3, none, none, [], [], none, none, none, false, 100⟩)],
        [], [], 1, 150⟩ : BrowserDataCache)).tab_data.map Prod.fst := by
  refine ⟨by decide, ?_, ?_⟩
  · exact ((c5_cleanup_stale_data
      (⟨[(1, ⟨1, none, none, [], [], none, none, none, false, 0⟩),
         (2, ⟨2, none, none, [], [], none, none, none, false, 50⟩),
         (3, ⟨3, none, none, [], [], none, none, none, false, 100⟩)],
        [], [], 1, 150⟩ : BrowserDataCache) 200 (by decide)).2.2.2 (by decide)).1
  · exact (c5_cleanup_stale_data
      (⟨[(1, ⟨1, none, none, [], [], none, none, none, false, 0⟩),
         (2, ⟨2, none, none, [], [], none, none, none, false, 50⟩),
         (3, ⟨3, none, none, [], [], none, none, none, false, 100⟩)],
        [], [], 1, 150⟩ : BrowserDataCache) 200 (by decide)).1
      (1, ⟨1, none, none, [], [], none, none, none, false, 0⟩) (by decide) (by decide)
